import Mathlib

/-! Formal model of the bet risk-and-staking decision engine.

This file is a shallow embedding, over `ℚ`, of the decision core of the
repository: the EV engine (`src/EVEngine/ev_calculator.py`), the stake engine
(`src/StakeEngine/calculator.py`), the risk filter (`src/RiskFilter/filter.py`),
the bankroll ledger (`src/BankrollEngine/service.py`), the risk guard
(`src/Services/risk_guard.py`), the bet pipeline
(`src/Services/bet_pipeline.py`) and the Monte Carlo season simulator
(`src/StressTesting/monte_carlo.py`).

Modelling conventions: Python floats are modelled as exact rationals; Python
`round(x, n)` is modelled by `pyRound` (round half to even, the documented
semantics of the builtin); `raise ValueError` becomes an `Except.error`;
the sqlite rows behind the bankroll service become explicit state records,
with the transaction table as a list ordered newest-first (the code always
reads it with `ORDER BY id DESC`); the distinct human-readable message
templates that the Python code puts into reason lists become constructors of
an inductive type, one per template.
-/

/-- Python builtin `round` to an integer: round half to even. -/
def roundHalfEven (q : ℚ) : ℤ :=
  if q - ⌊q⌋ < 1/2 then ⌊q⌋
  else if 1/2 < q - ⌊q⌋ then ⌊q⌋ + 1
  else if ⌊q⌋ % 2 = 0 then ⌊q⌋ else ⌊q⌋ + 1

/-- Python `round(x, ndigits)` for `ndigits ≥ 0`. -/
def pyRound (q : ℚ) (ndigits : ℕ) : ℚ :=
  (roundHalfEven (q * 10 ^ ndigits) : ℚ) / 10 ^ ndigits

namespace StakeEngine

/-- `src/StakeEngine/config.py`: FRACTIONAL_KELLY = 0.25. -/
def FRACTIONAL_KELLY : ℚ := 25/100

/-- `src/StakeEngine/config.py`: MAX_STAKE_PERCENT = 0.05. -/
def MAX_STAKE_PERCENT : ℚ := 5/100

/-- `src/StakeEngine/config.py`: MIN_STAKE_UNITS = 0.01. -/
def MIN_STAKE_UNITS : ℚ := 1/100

/-- `StakeResult` (pydantic model) from `src/StakeEngine/calculator.py`. -/
structure StakeResult where
  kelly_fraction : ℚ
  recommended_stake : ℚ
  stake_percent : ℚ
  was_capped : Bool
  was_zeroed : Bool
deriving Repr, DecidableEq

/-- `calculate_kelly` from `src/StakeEngine/calculator.py`:
returns 0.0 when odds ≤ 1.0, else (probability * odds - 1) / (odds - 1). -/
def calculate_kelly (probability odds : ℚ) : ℚ :=
  if odds ≤ 1 then 0
  else ((probability * odds) - 1) / (odds - 1)

/-- `calculate_stake` from `src/StakeEngine/calculator.py`.  The Python
default arguments (`config.FRACTIONAL_KELLY`, `config.MAX_STAKE_PERCENT`,
`aggressiveness=1.0`) are passed explicitly by callers of this model.
The sequential reassignments of `stake_units` in the source become the
numbered lets. -/
def calculate_stake (probability odds bankroll fractional_kelly
    max_stake_percent aggressiveness : ℚ) : StakeResult :=
  let kelly := calculate_kelly probability odds
  if kelly ≤ 0 then
    ⟨kelly, 0, 0, false, true⟩
  else
    let fractional_stake := kelly * fractional_kelly
    let adjusted_stake := fractional_stake * aggressiveness
    let stake_units := bankroll * adjusted_stake
    let max_stake_units := bankroll * max_stake_percent
    let was_capped : Bool := stake_units > max_stake_units
    let stake_units1 := if stake_units > max_stake_units then max_stake_units else stake_units
    let was_zeroed : Bool := stake_units1 < MIN_STAKE_UNITS
    let stake_units2 := if stake_units1 < MIN_STAKE_UNITS then 0 else stake_units1
    let stake_units3 := max 0 stake_units2
    let stake_percent := if bankroll > 0 then stake_units3 / bankroll else 0
    ⟨kelly, pyRound stake_units3 4, pyRound stake_percent 6, was_capped, was_zeroed⟩

end StakeEngine

namespace EVEngine

/-- The two `ValueError`s raised by `calculate_ev` in
`src/EVEngine/ev_calculator.py`. -/
inductive EVError where
  | probabilityOutOfRange
  | oddsNotAboveOne
deriving Repr, DecidableEq

/-- `EVResult` (pydantic model) from `src/EVEngine/ev_calculator.py`. -/
structure EVResult where
  probability : ℚ
  odds : ℚ
  ev : ℚ
  is_value_bet : Bool
deriving Repr, DecidableEq

/-- `calculate_ev` from `src/EVEngine/ev_calculator.py`. -/
def calculate_ev (probability odds : ℚ) : Except EVError EVResult :=
  if ¬ (0 ≤ probability ∧ probability ≤ 1) then
    Except.error EVError.probabilityOutOfRange
  else if odds ≤ 1 then
    Except.error EVError.oddsNotAboveOne
  else
    let ev := (probability * odds) - 1
    Except.ok ⟨probability, odds, ev, ev > 0⟩

end EVEngine

namespace RiskFilter

/-- `SeasonPhase` enum from `src/RiskFilter/filter.py`. -/
inductive SeasonPhase where
  | EARLY
  | MID
  | PRE_DEADLINE
  | LATE
deriving Repr, DecidableEq

/-- One constructor per distinct human-readable message template that the
Python code appends to a reasons list: the six templates of
`RiskFilter.validate` (`src/RiskFilter/filter.py`), the three of
`RiskGuard.validate_bet` (`src/Services/risk_guard.py`), and the one the
pipeline uses for its redundant PAUSED check
(`src/Services/bet_pipeline.py`). -/
inductive Reason where
  | deadZone
  | belowMinProbability
  | belowMinEV
  | earlySeasonVolatile
  | preDeadlineWarning
  | nonPositiveEV
  | circuitBreakerPaused
  | earlySeasonHardRule
  | degradedWarning
  | bankrollPausedSafetyNet
deriving Repr, DecidableEq

/-- `RiskDecision` (pydantic model) from `src/RiskFilter/filter.py`. -/
structure RiskDecision where
  allowed : Bool
  reasons : List Reason
  aggressiveness : ℚ
deriving Repr, DecidableEq

/-- `src/RiskFilter/config.py`: MIN_PROBABILITY = 0.55. -/
def MIN_PROBABILITY : ℚ := 55/100

/-- `src/RiskFilter/config.py`: PROBABILITY_DEAD_ZONE = (0.50, 0.55). -/
def PROBABILITY_DEAD_ZONE : ℚ × ℚ := (50/100, 55/100)

/-- `src/RiskFilter/config.py`: MIN_EV = 0.03. -/
def MIN_EV : ℚ := 3/100

/-- `src/RiskFilter/config.py`: BLOCK_EARLY_SEASON = True. -/
def BLOCK_EARLY_SEASON : Bool := true

/-- `src/RiskFilter/config.py`: REDUCE_PRE_TRADE_DEADLINE = True. -/
def REDUCE_PRE_TRADE_DEADLINE : Bool := true

/-- `src/RiskFilter/config.py`: AGGRESSIVENESS_NORMAL = 1.0. -/
def AGGRESSIVENESS_NORMAL : ℚ := 1

/-- `src/RiskFilter/config.py`: AGGRESSIVENESS_PRE_DEADLINE = 0.5. -/
def AGGRESSIVENESS_PRE_DEADLINE : ℚ := 1/2

/-- `src/RiskFilter/config.py`: AGGRESSIVENESS_EARLY_SEASON = 0.0. -/
def AGGRESSIVENESS_EARLY_SEASON : ℚ := 0

/-- The four constructor parameters of the `RiskFilter` class
(`src/RiskFilter/filter.py`). -/
structure FilterConfig where
  min_probability : ℚ
  min_ev : ℚ
  block_early_season : Bool
  reduce_pre_deadline : Bool
deriving Repr, DecidableEq

/-- The default-constructed `RiskFilter()`, i.e. all constructor arguments
taken from `src/RiskFilter/config.py`. -/
def defaultConfig : FilterConfig :=
  ⟨MIN_PROBABILITY, MIN_EV, BLOCK_EARLY_SEASON, REDUCE_PRE_TRADE_DEADLINE⟩

/-- `RiskFilter.validate` from `src/RiskFilter/filter.py`.  The Python
mutable locals `allowed`, `reasons` and `aggressiveness` become shadowing
lets, one rebinding per rule, in source order. -/
def validate (cfg : FilterConfig) (probability ev : ℚ)
    (season_phase : Option SeasonPhase) : RiskDecision :=
  let reasons : List Reason := []
  let allowed : Bool := true
  let aggressiveness := AGGRESSIVENESS_NORMAL
  -- Rule 1: Probability Dead Zone
  let hit1 := PROBABILITY_DEAD_ZONE.1 ≤ probability ∧ probability < PROBABILITY_DEAD_ZONE.2
  let allowed := if hit1 then false else allowed
  let reasons := if hit1 then reasons ++ [Reason.deadZone] else reasons
  -- Rule 2: Min Probability
  let hit2 := probability < cfg.min_probability
  let allowed := if hit2 then false else allowed
  let reasons := if hit2 then reasons ++ [Reason.belowMinProbability] else reasons
  -- Rule 3: Min EV
  let hit3 := ev < cfg.min_ev
  let allowed := if hit3 then false else allowed
  let reasons := if hit3 then reasons ++ [Reason.belowMinEV] else reasons
  -- Rule 4: Seasonal Flags (if season_phase: ... elif ...)
  let (allowed, aggressiveness, reasons) :=
    match season_phase with
    | some SeasonPhase.EARLY =>
        if cfg.block_early_season then
          (false, AGGRESSIVENESS_EARLY_SEASON, reasons ++ [Reason.earlySeasonVolatile])
        else (allowed, aggressiveness, reasons)
    | some SeasonPhase.PRE_DEADLINE =>
        if cfg.reduce_pre_deadline then
          (allowed, AGGRESSIVENESS_PRE_DEADLINE, reasons ++ [Reason.preDeadlineWarning])
        else (allowed, aggressiveness, reasons)
    | _ => (allowed, aggressiveness, reasons)
  -- Rule 5: EV must be positive (hard rule)
  let hit5 := ev ≤ 0
  let allowed := if hit5 then false else allowed
  let reasons := if hit5 then reasons ++ [Reason.nonPositiveEV] else reasons
  ⟨allowed, reasons, if allowed then aggressiveness else 0⟩

end RiskFilter

namespace BankrollEngine

/-- `TransactionType` enum from `src/BankrollEngine/models.py`. -/
inductive TransactionType where
  | RESET
  | BET_WIN
  | BET_LOSS
  | ADJUSTMENT
deriving Repr, DecidableEq

/-- The bankroll status strings used by `src/BankrollEngine/service.py`. -/
inductive BankrollStatus where
  | ACTIVE
  | DEGRADED
  | PAUSED
deriving Repr, DecidableEq

/-- A row of the `transactions` table as inserted by `update_bankroll`
(`src/BankrollEngine/service.py`).  The `id`/`timestamp`/`note`/
`expected_value` metadata columns play no role in any control flow and are
omitted from the model. -/
structure Transaction where
  type : TransactionType
  amount : ℚ
  balance_after : ℚ
deriving Repr, DecidableEq

/-- The singleton `bankroll_state` row read and written by
`src/BankrollEngine/service.py` (`last_updated` omitted: never read). -/
structure BankrollState where
  current_units : ℚ
  initial_units : ℚ
  peak_bankroll : ℚ
  max_drawdown : ℚ
  kelly_fraction : ℚ
  status : BankrollStatus
deriving Repr, DecidableEq

/-- The whole sqlite database behind `BankrollService`: the singleton state
row plus the transactions table, newest transaction first (the code only
reads transactions with `ORDER BY id DESC`). -/
structure BankrollDB where
  state : BankrollState
  transactions : List Transaction
deriving Repr, DecidableEq

/-- The sql filter of `_count_consecutive_losses`: keep only rows whose
type is BET_WIN or BET_LOSS. -/
def isBetTx (t : Transaction) : Bool :=
  t.type = TransactionType.BET_WIN ∨ t.type = TransactionType.BET_LOSS

/-- `BankrollService._count_consecutive_losses`: take the newest 20
win/loss transactions and count the leading run of `BET_LOSS`. -/
def count_consecutive_losses (transactions : List Transaction) : ℕ :=
  (((transactions.filter isBetTx).take 20).takeWhile
    (fun t => t.type = TransactionType.BET_LOSS)).length

/-- `BankrollService._update_status` (`src/BankrollEngine/service.py`):
the state-machine transition, returning (new_status, new_kelly_fraction).
The Python method re-reads the current state row; here it is passed in. -/
def update_status (state : BankrollState) (current_drawdown : ℚ)
    (consecutive_losses : ℕ) : BankrollStatus × ℚ :=
  if consecutive_losses ≥ 10 then (BankrollStatus.PAUSED, 0)
  else if current_drawdown > 40/100 then (BankrollStatus.PAUSED, 0)
  else if state.status = BankrollStatus.ACTIVE then
    (if current_drawdown > 20/100 then (BankrollStatus.DEGRADED, 10/100)
     else (state.status, state.kelly_fraction))
  else if state.status = BankrollStatus.DEGRADED then
    (if current_drawdown < 15/100 then (BankrollStatus.ACTIVE, 25/100)
     else (state.status, state.kelly_fraction))
  else (state.status, state.kelly_fraction)

/-- The `result` argument of `update_bankroll` (already upper-cased; the
Python `result.upper()` is a no-op on these values). -/
inductive BetResult where
  | WIN
  | LOSS
  | PUSH
deriving Repr, DecidableEq

/-- `BankrollService.update_bankroll` (`src/BankrollEngine/service.py`):
returns the updated database together with the returned balance.  A call
in PAUSED status is the logged no-op of the source (returns the current
units, changes nothing). -/
def update_bankroll (db : BankrollDB) (result : BetResult)
    (stake_units profit_units : ℚ) : BankrollDB × ℚ :=
  if db.state.status = BankrollStatus.PAUSED then
    (db, db.state.current_units)
  else
    let current := db.state.current_units
    let peak := db.state.peak_bankroll
    let max_dd := db.state.max_drawdown
    let change := match result with
      | BetResult.WIN => profit_units
      | BetResult.LOSS => -stake_units
      | BetResult.PUSH => 0
    let tx_type := match result with
      | BetResult.WIN => TransactionType.BET_WIN
      | BetResult.LOSS => TransactionType.BET_LOSS
      | BetResult.PUSH => TransactionType.ADJUSTMENT
    let new_balance := current + change
    let new_peak := max peak new_balance
    let current_drawdown := if new_peak > 0 then (new_peak - new_balance) / new_peak else 0
    let new_max_drawdown := max max_dd current_drawdown
    let transactions := ⟨tx_type, change, new_balance⟩ :: db.transactions
    let losses := count_consecutive_losses transactions
    let sk := update_status db.state current_drawdown losses
    (⟨⟨new_balance, db.state.initial_units, new_peak, new_max_drawdown, sk.2, sk.1⟩,
      transactions⟩, new_balance)

/-- One call of `update_bankroll`, keeping only the database (helper for
stating properties of call sequences). -/
def apply_update (db : BankrollDB) (u : BetResult × ℚ × ℚ) : BankrollDB :=
  (update_bankroll db u.1 u.2.1 u.2.2).1

/-- A sequence of `update_bankroll` calls, oldest first. -/
def apply_updates (db : BankrollDB) (updates : List (BetResult × ℚ × ℚ)) : BankrollDB :=
  updates.foldl apply_update db

/-- A sequence of LOSS updates with the given stakes (profit 0). -/
def apply_losses (db : BankrollDB) (stakes : List ℚ) : BankrollDB :=
  stakes.foldl (fun d s => (update_bankroll d BetResult.LOSS s 0).1) db

/-- Length of the leading run of BET_LOSS among all win/loss transactions
(no 20-row cutoff); `count_consecutive_losses` is its truncation at 20. -/
def lossStreak (db : BankrollDB) : ℕ :=
  ((db.transactions.filter isBetTx).takeWhile
    (fun t => t.type = TransactionType.BET_LOSS)).length

end BankrollEngine

namespace RiskGuard

/-- The month/day of the `game_date : datetime` argument (the only parts
`RiskGuard` reads). -/
structure GameDate where
  month : ℕ
  day : ℕ
deriving Repr, DecidableEq

/-- `RiskGuard._determine_phase` (`src/Services/risk_guard.py`):
hard-coded season phases by calendar month. -/
def determine_phase (game_date : GameDate) : RiskFilter.SeasonPhase :=
  let m := game_date.month
  let d := game_date.day
  if m = 10 ∨ m = 11 then RiskFilter.SeasonPhase.EARLY
  else if m = 12 then
    (if d < 25 then RiskFilter.SeasonPhase.EARLY else RiskFilter.SeasonPhase.MID)
  else if m = 1 then RiskFilter.SeasonPhase.MID
  else if m = 2 then RiskFilter.SeasonPhase.PRE_DEADLINE
  else if m = 3 ∨ m = 4 then RiskFilter.SeasonPhase.LATE
  else RiskFilter.SeasonPhase.MID

/-- `RiskGuard.validate_bet` (`src/Services/risk_guard.py`).  The Python
method reads the bankroll status from the singleton `BankrollService`;
here that status is an explicit argument.  Its `RiskFilter()` is the
default-constructed filter. -/
def validate_bet (status : BankrollEngine.BankrollStatus) (probability ev : ℚ)
    (game_date : GameDate) : RiskFilter.RiskDecision :=
  -- 1. Circuit Breaker Check (Bankroll Status)
  if status = BankrollEngine.BankrollStatus.PAUSED then
    ⟨false, [RiskFilter.Reason.circuitBreakerPaused], 0⟩
  else
    -- 2. Hard Rule: Early Season Block
    let phase := determine_phase game_date
    if phase = RiskFilter.SeasonPhase.EARLY then
      ⟨false, [RiskFilter.Reason.earlySeasonHardRule], 0⟩
    else
      -- 3. Standard Risk Filter
      let decision := RiskFilter.validate RiskFilter.defaultConfig probability ev (some phase)
      -- 4. Bankroll Degradation Logic
      if decision.allowed = true ∧ status = BankrollEngine.BankrollStatus.DEGRADED then
        ⟨decision.allowed, decision.reasons ++ [RiskFilter.Reason.degradedWarning],
          decision.aggressiveness⟩
      else decision

end RiskGuard

namespace BetPipeline

/-- The `decision` field values of `BetDecision`
(`src/Services/bet_pipeline.py`). -/
inductive Decision where
  | BET
  | PASS
  | BLOCKED
deriving Repr, DecidableEq

/-- The `reason` string of a `BetDecision`, one constructor per message
template the pipeline builds (`src/Services/bet_pipeline.py`): the four
`_pass` call sites, `_block` (which joins the risk reasons), and the
approval message. -/
inductive PipeReason where
  | invalidProbability
  | invalidOdds
  | evCalcError (e : EVEngine.EVError)
  | negativeValue
  | zeroStakeRecommended
  | blocked (reasons : List RiskFilter.Reason)
  | approved
deriving Repr, DecidableEq

/-- `BetDecision` (pydantic model) from `src/Services/bet_pipeline.py`. -/
structure BetDecision where
  game_id : String
  decision : Decision
  stake_units : ℚ
  ev_result : Option EVEngine.EVResult
  risk_decision : Option RiskFilter.RiskDecision
  stake_result : Option StakeEngine.StakeResult
  reason : PipeReason
deriving Repr, DecidableEq

/-- `BetPipeline._pass`. -/
def pass_decision (game_id : String) (reason : PipeReason)
    (ev_res : Option EVEngine.EVResult) (risk_decision : Option RiskFilter.RiskDecision)
    (stake_res : Option StakeEngine.StakeResult) : BetDecision :=
  ⟨game_id, Decision.PASS, 0, ev_res, risk_decision, stake_res, reason⟩

/-- `BetPipeline._block`. -/
def block_decision (game_id : String) (reasons : List RiskFilter.Reason)
    (ev_res : Option EVEngine.EVResult)
    (risk_decision : Option RiskFilter.RiskDecision) : BetDecision :=
  ⟨game_id, Decision.BLOCKED, 0, ev_res, risk_decision, none, PipeReason.blocked reasons⟩

/-- `BetPipeline.process_bet` (`src/Services/bet_pipeline.py`).  The
pipeline reads the bankroll singleton twice: `validate_bet` reads its
status, and step 4 reads the full state snapshot; both reads see the same
`bankroll_state` argument here (no update happens in between). -/
def process_bet (bankroll_state : BankrollEngine.BankrollState) (game_id : String)
    (probability odds : ℚ) (game_date : RiskGuard.GameDate) : BetDecision :=
  -- 1. Probability Gate (Sanity Check)
  if ¬ (0 ≤ probability ∧ probability ≤ 1) then
    pass_decision game_id PipeReason.invalidProbability none none none
  else if odds ≤ 1 then
    pass_decision game_id PipeReason.invalidOdds none none none
  else
    -- 2. EV Engine (Value Check)
    match EVEngine.calculate_ev probability odds with
    | Except.error e => pass_decision game_id (PipeReason.evCalcError e) none none none
    | Except.ok ev_res =>
      if ev_res.ev ≤ 0 then
        pass_decision game_id PipeReason.negativeValue (some ev_res) none none
      else
        -- 3. Risk Guard
        let risk_decision :=
          RiskGuard.validate_bet bankroll_state.status probability ev_res.ev game_date
        if risk_decision.allowed = false then
          block_decision game_id risk_decision.reasons (some ev_res) (some risk_decision)
        else
          -- 4. Bankroll State & Stake Engine
          if bankroll_state.status = BankrollEngine.BankrollStatus.PAUSED then
            block_decision game_id [RiskFilter.Reason.bankrollPausedSafetyNet]
              (some ev_res) (some risk_decision)
          else
            let stake_res := StakeEngine.calculate_stake probability odds
              bankroll_state.current_units bankroll_state.kelly_fraction
              StakeEngine.MAX_STAKE_PERCENT risk_decision.aggressiveness
            -- 5. Final validation of Stake
            if stake_res.recommended_stake ≤ 0 then
              pass_decision game_id PipeReason.zeroStakeRecommended
                (some ev_res) (some risk_decision) (some stake_res)
            else
              -- 6. BET / GO
              ⟨game_id, Decision.BET, stake_res.recommended_stake, some ev_res,
                some risk_decision, some stake_res, PipeReason.approved⟩

end BetPipeline

namespace MonteCarlo

/-- `src/StressTesting/monte_carlo.py`: GAMES_PER_SEASON = 1230. -/
def GAMES_PER_SEASON : ℕ := 1230

/-- `src/StressTesting/monte_carlo.py`: INITIAL_BANKROLL = 100.0. -/
def INITIAL_BANKROLL : ℚ := 100

/-- `src/StressTesting/monte_carlo.py`: RUIN_THRESHOLD = 10.0. -/
def RUIN_THRESHOLD : ℚ := 10

/-- One row of the simulation pool as read by `run_single_season`
(`outcome_home` is 1 when the home side won). -/
structure PoolRow where
  prob_home : ℚ
  odds_home : ℚ
  outcome_home : ℕ
deriving Repr, DecidableEq

/-- The `params` dict of `run_single_season` with its three recognized
keys and their defaults. -/
structure SimParams where
  fractional_kelly : ℚ
  prob_bias : ℚ
  min_ev : ℚ
deriving Repr, DecidableEq

/-- `np.clip(x, lo, hi)`. -/
def clip (x lo hi : ℚ) : ℚ := min (max x lo) hi

/-- The result dict of `run_single_season`. -/
structure SeasonResult where
  final_roi : ℚ
  max_drawdown : ℚ
  bankrupt : Bool
  total_bets : ℕ
  final_bankroll : ℚ
deriving Repr, DecidableEq

/-- The body of the `for i, row in enumerate(pool_sample)` loop of
`run_single_season` (`src/StressTesting/monte_carlo.py`) for one game,
mapping the mutable loop state (bankroll, peak, max drawdown, bet count)
to its value after the game.  The season-phase computation, the
seen-probability bias clip, the filter built as
`RiskFilter(min_ev=ev_threshold)` and the stake call with the default max
cap follow the source line by line. -/
def season_step (params : SimParams) (row : PoolRow) (i : ℕ)
    (bankroll peak_bankroll max_drawdown : ℚ) (total_bets : ℕ) :
    ℚ × ℚ × ℚ × ℕ :=
  let progress_pct := (i : ℚ) / (GAMES_PER_SEASON : ℚ)
  let phase :=
    if progress_pct < 25/100 then RiskFilter.SeasonPhase.EARLY
    else if progress_pct < 60/100 then RiskFilter.SeasonPhase.MID
    else if progress_pct < 75/100 then RiskFilter.SeasonPhase.PRE_DEADLINE
    else RiskFilter.SeasonPhase.LATE
  let p_seen := clip (row.prob_home + params.prob_bias) (1/100) (99/100)
  let ev_seen := (p_seen * row.odds_home) - 1
  let cfg : RiskFilter.FilterConfig :=
    ⟨RiskFilter.MIN_PROBABILITY, params.min_ev,
      RiskFilter.BLOCK_EARLY_SEASON, RiskFilter.REDUCE_PRE_TRADE_DEADLINE⟩
  let risk_decision := RiskFilter.validate cfg p_seen ev_seen (some phase)
  if risk_decision.allowed then
    let stake_res := StakeEngine.calculate_stake p_seen row.odds_home bankroll
      params.fractional_kelly StakeEngine.MAX_STAKE_PERCENT
      risk_decision.aggressiveness
    let stake := stake_res.recommended_stake
    if stake > 0 then
      let bankroll1 :=
        if row.outcome_home = 1 then bankroll + stake * (row.odds_home - 1)
        else bankroll - stake
      let peak1 := if bankroll1 > peak_bankroll then bankroll1 else peak_bankroll
      let dd := (peak1 - bankroll1) / peak1
      let maxdd1 := if dd > max_drawdown then dd else max_drawdown
      (bankroll1, peak1, maxdd1, total_bets + 1)
    else (bankroll, peak_bankroll, max_drawdown, total_bets)
  else (bankroll, peak_bankroll, max_drawdown, total_bets)

/-- The `for` loop of `run_single_season` itself: the top-of-iteration
ruin short-circuit, then one `season_step` per game, then the end-of-season
result. -/
def season_loop (params : SimParams) :
    List PoolRow → ℕ → ℚ → ℚ → ℚ → ℕ → SeasonResult
  | [], _, bankroll, _, max_drawdown, total_bets =>
      -- End of season
      ⟨(bankroll - INITIAL_BANKROLL) / INITIAL_BANKROLL, max_drawdown, false,
        total_bets, bankroll⟩
  | row :: rest, i, bankroll, peak_bankroll, max_drawdown, total_bets =>
      if bankroll < RUIN_THRESHOLD then
        ⟨-1, 1, true, total_bets, bankroll⟩
      else
        let s := season_step params row i bankroll peak_bankroll max_drawdown total_bets
        season_loop params rest (i + 1) s.1 s.2.1 s.2.2.1 s.2.2.2

/-- `run_single_season` (`src/StressTesting/monte_carlo.py`): run the
season loop from the initial in-memory bankroll state. -/
def run_single_season (pool_sample : List PoolRow) (params : SimParams) : SeasonResult :=
  season_loop params pool_sample 0 INITIAL_BANKROLL INITIAL_BANKROLL 0 0

end MonteCarlo

/-! Helper lemmas. -/

theorem roundHalfEven_le (q : ℚ) : (roundHalfEven q : ℚ) ≤ q + 1/2 := by
  have hfl : ((⌊q⌋ : ℤ) : ℚ) ≤ q := Int.floor_le q
  unfold roundHalfEven
  split_ifs with h1 h2 h3
  · linarith
  · push_cast
    linarith [not_lt.mp h1]
  · linarith
  · push_cast
    linarith [not_lt.mp h2]

theorem pyRound_le_4 (q : ℚ) : pyRound q 4 ≤ q + 1/20000 := by
  have h := roundHalfEven_le (q * 10 ^ 4)
  unfold pyRound
  rw [div_le_iff₀ (by norm_num : (0:ℚ) < 10 ^ 4)]
  nlinarith [h]

/-- Helper: on valid inputs `calculate_ev` succeeds with the contract
result (shared between the EV-engine and pipeline claims). -/
theorem calculate_ev_ok (p odds : ℚ) (h0 : 0 ≤ p) (h1 : p ≤ 1) (h2 : 1 < odds) :
    EVEngine.calculate_ev p odds =
      Except.ok ⟨p, odds, p * odds - 1, decide (p * odds - 1 > 0)⟩ := by
  unfold EVEngine.calculate_ev
  rw [if_neg (not_not_intro ⟨h0, h1⟩), if_neg (not_le.mpr h2)]

/-! Claim theorems. -/

/-- C4: for probability in [0,1] and odds > 1, `calculate_ev` returns
`ev = p·odds − 1` with `is_value_bet` true exactly when `ev > 0` strictly;
for probability outside [0,1] or odds ≤ 1 it fails with a validation
error (no silent clamping). -/
theorem calculate_ev_contract (p odds : ℚ) :
    (0 ≤ p ∧ p ≤ 1 ∧ 1 < odds →
      ∃ r : EVEngine.EVResult, EVEngine.calculate_ev p odds = Except.ok r ∧
        r.probability = p ∧ r.odds = odds ∧ r.ev = p * odds - 1 ∧
        (r.is_value_bet = true ↔ 0 < r.ev))
    ∧ ((¬ (0 ≤ p ∧ p ≤ 1) ∨ odds ≤ 1) →
      ∃ e, EVEngine.calculate_ev p odds = Except.error e) := by
  constructor
  · rintro ⟨h0, h1, h2⟩
    refine ⟨_, calculate_ev_ok p odds h0 h1 h2, rfl, rfl, rfl, ?_⟩
    simp [decide_eq_true_iff]
  · intro h
    unfold EVEngine.calculate_ev
    rcases h with h | h
    · exact ⟨_, by rw [if_pos h]⟩
    · by_cases hp : ¬ (0 ≤ p ∧ p ≤ 1)
      · exact ⟨_, by rw [if_pos hp]⟩
      · exact ⟨_, by rw [if_neg hp, if_pos h]⟩

/-- C4 witness: the two branches of `calculate_ev_contract` applied at
concrete inputs (0.55, 2.00) and (0.5, 1.0). -/
theorem calculate_ev_contract_witness :
    (∃ r : EVEngine.EVResult, EVEngine.calculate_ev (55/100) 2 = Except.ok r ∧
      r.probability = 55/100 ∧ r.odds = 2 ∧ r.ev = (55/100 : ℚ) * 2 - 1 ∧
      (r.is_value_bet = true ↔ 0 < r.ev))
    ∧ (∃ e, EVEngine.calculate_ev (1/2) 1 = Except.error e) :=
  ⟨(calculate_ev_contract (55/100) 2).1 ⟨by norm_num, by norm_num, by norm_num⟩,
   (calculate_ev_contract (1/2) 1).2 (Or.inr (by norm_num))⟩

/-- C2 counterexample: the claim asserts `recommended_stake ≤
bankroll · max_stake_percent` for every combination of inputs, but at
probability 1, odds 2, bankroll 0.2012 and the default parameters the cap
0.2012·0.05 = 0.01006 binds (`was_capped` is true) and the final
`round(stake, 4)` lifts the reported stake to 0.0101 > 0.01006. -/
theorem calculate_stake_cap_counterexample :
    ((StakeEngine.calculate_stake 1 2 (2012/10000) StakeEngine.FRACTIONAL_KELLY
        StakeEngine.MAX_STAKE_PERCENT 1).recommended_stake
      > (2012/10000 : ℚ) * StakeEngine.MAX_STAKE_PERCENT) ∧
    (StakeEngine.calculate_stake 1 2 (2012/10000) StakeEngine.FRACTIONAL_KELLY
        StakeEngine.MAX_STAKE_PERCENT 1).was_capped = true := by
  have hk : StakeEngine.calculate_kelly 1 2 = 1 := by
    norm_num [StakeEngine.calculate_kelly]
  unfold StakeEngine.calculate_stake
  rw [hk]
  norm_num [StakeEngine.FRACTIONAL_KELLY, StakeEngine.MAX_STAKE_PERCENT,
    StakeEngine.MIN_STAKE_UNITS, pyRound, roundHalfEven, max_def,
    Int.floor_eq_iff]

/-- C2 amended: the stake before the final 4-decimal rounding never
exceeds `bankroll · max_stake_percent` (whenever that cap is
nonnegative), so `recommended_stake` exceeds it by at most the rounding
slack 1/20000 = 0.00005; and `was_capped` is true exactly when the
uncapped stake `bankroll · f* · fractional_kelly · aggressiveness`
strictly exceeded the cap. -/
theorem calculate_stake_cap (p odds bankroll fk msp aggr : ℚ)
    (h : 0 ≤ bankroll * msp) :
    (StakeEngine.calculate_stake p odds bankroll fk msp aggr).recommended_stake
      ≤ bankroll * msp + 1/20000
    ∧ ((StakeEngine.calculate_stake p odds bankroll fk msp aggr).was_capped = true ↔
        (0 < StakeEngine.calculate_kelly p odds ∧
          bankroll * (StakeEngine.calculate_kelly p odds * fk * aggr)
            > bankroll * msp)) := by
  have key : ∀ X : ℚ, X ≤ bankroll * msp →
      pyRound (max 0 X) 4 ≤ bankroll * msp + 1/20000 := by
    intro X hX
    refine le_trans (pyRound_le_4 _) ?_
    have := max_le h hX
    linarith
  unfold StakeEngine.calculate_stake
  by_cases hk : StakeEngine.calculate_kelly p odds ≤ 0
  · rw [if_pos hk]
    refine ⟨by simpa using by linarith, ?_⟩
    simp only [Bool.false_eq_true, false_iff]
    rintro ⟨h1, -⟩
    exact absurd h1 (not_lt.mpr hk)
  · rw [if_neg hk]
    dsimp only
    constructor
    · split_ifs with h1 h2 h3
      · exact key 0 h
      · exact key _ le_rfl
      · exact key 0 h
      · exact key _ (not_lt.mp h1)
    · simp only [decide_eq_true_eq]
      constructor
      · intro hcap
        exact ⟨not_le.mp hk, by
          simpa [mul_assoc] using hcap⟩
      · rintro ⟨-, hcap⟩
        simpa [mul_assoc] using hcap

/-- C2 witness: the amended bound and the `was_capped` characterization
applied at the concrete capped input of the counterexample. -/
theorem calculate_stake_cap_witness :
    (StakeEngine.calculate_stake 1 2 (2012/10000) StakeEngine.FRACTIONAL_KELLY
        StakeEngine.MAX_STAKE_PERCENT 1).recommended_stake
      ≤ (2012/10000 : ℚ) * StakeEngine.MAX_STAKE_PERCENT + 1/20000
    ∧ ((StakeEngine.calculate_stake 1 2 (2012/10000) StakeEngine.FRACTIONAL_KELLY
        StakeEngine.MAX_STAKE_PERCENT 1).was_capped = true ↔
        (0 < StakeEngine.calculate_kelly 1 2 ∧
          (2012/10000 : ℚ) * (StakeEngine.calculate_kelly 1 2 *
              StakeEngine.FRACTIONAL_KELLY * 1)
            > (2012/10000 : ℚ) * StakeEngine.MAX_STAKE_PERCENT)) :=
  calculate_stake_cap 1 2 (2012/10000) StakeEngine.FRACTIONAL_KELLY
    StakeEngine.MAX_STAKE_PERCENT 1
    (by norm_num [StakeEngine.MAX_STAKE_PERCENT])

/-- Helper: `validate` always returns an aggressiveness of the form
`if allowed then g else 0` (the last line of the Python method). -/
theorem RiskFilter.validate_agg_shape (cfg : RiskFilter.FilterConfig) (p ev : ℚ)
    (phase : Option RiskFilter.SeasonPhase) :
    ∃ g, (RiskFilter.validate cfg p ev phase).aggressiveness =
      if (RiskFilter.validate cfg p ev phase).allowed = true then g else 0 := by
  obtain ⟨mp, mev, bes, rpd⟩ := cfg
  rcases phase with - | ph
  · exact ⟨_, rfl⟩
  · cases ph <;> cases bes <;> cases rpd <;> exact ⟨_, rfl⟩

/-- C6: every probability in [0.50, 0.55) is blocked by
`RiskFilter.validate` with the dead-zone reason and aggressiveness 0, for
every EV, every filter configuration and every non-EARLY season phase;
and in general a disallowed decision always carries aggressiveness 0. -/
theorem risk_filter_dead_zone :
    (∀ (cfg : RiskFilter.FilterConfig) (p ev : ℚ)
        (phase : Option RiskFilter.SeasonPhase),
      50/100 ≤ p → p < 55/100 → phase ≠ some RiskFilter.SeasonPhase.EARLY →
        (RiskFilter.validate cfg p ev phase).allowed = false ∧
        RiskFilter.Reason.deadZone ∈ (RiskFilter.validate cfg p ev phase).reasons ∧
        (RiskFilter.validate cfg p ev phase).aggressiveness = 0)
    ∧ (∀ (cfg : RiskFilter.FilterConfig) (p ev : ℚ)
        (phase : Option RiskFilter.SeasonPhase),
      (RiskFilter.validate cfg p ev phase).allowed = false →
        (RiskFilter.validate cfg p ev phase).aggressiveness = 0) := by
  constructor
  · rintro cfg p ev phase h1 h2 hphase
    have hdz : RiskFilter.PROBABILITY_DEAD_ZONE.1 ≤ p ∧
        p < RiskFilter.PROBABILITY_DEAD_ZONE.2 :=
      ⟨by simpa [RiskFilter.PROBABILITY_DEAD_ZONE] using h1,
       by simpa [RiskFilter.PROBABILITY_DEAD_ZONE] using h2⟩
    rcases phase with - | ph
    · simp only [RiskFilter.validate, if_pos hdz]
      refine ⟨?_, ?_, ?_⟩ <;> (split_ifs <;> simp_all)
    · cases ph
      case EARLY => exact absurd rfl hphase
      case MID =>
        simp only [RiskFilter.validate, if_pos hdz]
        refine ⟨?_, ?_, ?_⟩ <;> (split_ifs <;> simp_all)
      case PRE_DEADLINE =>
        simp only [RiskFilter.validate, if_pos hdz]
        refine ⟨?_, ?_, ?_⟩ <;> (split_ifs <;> simp_all)
      case LATE =>
        simp only [RiskFilter.validate, if_pos hdz]
        refine ⟨?_, ?_, ?_⟩ <;> (split_ifs <;> simp_all)
  · rintro cfg p ev phase hallow
    obtain ⟨g, hg⟩ := RiskFilter.validate_agg_shape cfg p ev phase
    rw [hg, hallow]
    simp

/-- C6 witness: the dead-zone block and the aggressiveness-zeroing applied
at probability 0.52, EV 0.10, MID phase, default configuration. -/
theorem risk_filter_dead_zone_witness :
    ((RiskFilter.validate RiskFilter.defaultConfig (52/100) (10/100)
        (some RiskFilter.SeasonPhase.MID)).allowed = false ∧
      RiskFilter.Reason.deadZone ∈ (RiskFilter.validate RiskFilter.defaultConfig
        (52/100) (10/100) (some RiskFilter.SeasonPhase.MID)).reasons ∧
      (RiskFilter.validate RiskFilter.defaultConfig (52/100) (10/100)
        (some RiskFilter.SeasonPhase.MID)).aggressiveness = 0) ∧
    (RiskFilter.validate RiskFilter.defaultConfig (52/100) (10/100)
        (some RiskFilter.SeasonPhase.MID)).aggressiveness = 0 := by
  have h := risk_filter_dead_zone.1 RiskFilter.defaultConfig (52/100) (10/100)
    (some RiskFilter.SeasonPhase.MID) (by norm_num) (by norm_num) (by simp)
  exact ⟨h, risk_filter_dead_zone.2 RiskFilter.defaultConfig (52/100) (10/100)
    (some RiskFilter.SeasonPhase.MID) h.1⟩

/-- C7: a bet dated in October, November, or December before the 25th is
always blocked by `RiskGuard.validate_bet`, for every probability, EV and
bankroll status (the EARLY-season hard rule; a PAUSED status blocks too).
The model is a total function returning a `RiskDecision`, matching the
never-throws contract. -/
theorem risk_guard_early_season_block
    (status : BankrollEngine.BankrollStatus) (p ev : ℚ) (m d : ℕ)
    (hm : m = 10 ∨ m = 11 ∨ (m = 12 ∧ d < 25)) :
    (RiskGuard.validate_bet status p ev ⟨m, d⟩).allowed = false := by
  have hphase : RiskGuard.determine_phase ⟨m, d⟩ = RiskFilter.SeasonPhase.EARLY := by
    unfold RiskGuard.determine_phase
    rcases hm with h | h | ⟨h, hd⟩
    · exact if_pos (Or.inl h)
    · exact if_pos (Or.inr h)
    · subst h
      rw [if_neg (by norm_num), if_pos rfl, if_pos hd]
  unfold RiskGuard.validate_bet
  by_cases hs : status = BankrollEngine.BankrollStatus.PAUSED
  · rw [if_pos hs]
  · rw [if_neg hs]
    simp only [hphase, if_true, eq_self_iff_true]

/-- C7 witness: a November 5 bet is blocked even with probability 0.9 and
EV 0.5 while the bankroll is ACTIVE. -/
theorem risk_guard_early_season_block_witness :
    (RiskGuard.validate_bet BankrollEngine.BankrollStatus.ACTIVE (9/10) (1/2)
      ⟨11, 5⟩).allowed = false :=
  risk_guard_early_season_block BankrollEngine.BankrollStatus.ACTIVE (9/10) (1/2)
    11 5 (Or.inr (Or.inl rfl))

/-- C10: with probability in [0,1], odds > 1 and non-positive computed EV,
`process_bet` short-circuits at the EV gate with a PASS decision and the
negative-value reason, before the Risk Guard is consulted — so the result
holds for every bankroll state (even PAUSED) and every game date. -/
theorem pipeline_negative_ev_pass (st : BankrollEngine.BankrollState)
    (gid : String) (p odds : ℚ) (date : RiskGuard.GameDate)
    (h0 : 0 ≤ p) (h1 : p ≤ 1) (h2 : 1 < odds) (h3 : p * odds - 1 ≤ 0) :
    (BetPipeline.process_bet st gid p odds date).decision
        = BetPipeline.Decision.PASS ∧
    (BetPipeline.process_bet st gid p odds date).reason
        = BetPipeline.PipeReason.negativeValue := by
  unfold BetPipeline.process_bet
  rw [if_neg (not_not_intro ⟨h0, h1⟩), if_neg (not_le.mpr h2),
    calculate_ev_ok p odds h0 h1 h2]
  dsimp only
  rw [if_pos h3]
  exact ⟨rfl, rfl⟩

/-- C10 witness: probability 0.5 at odds 1.5 (EV = −0.25) is a PASS with
the negative-value reason even for a PAUSED bankroll and an early-season
game date. -/
theorem pipeline_negative_ev_pass_witness :
    (BetPipeline.process_bet ⟨100, 100, 100, 0, 0, BankrollEngine.BankrollStatus.PAUSED⟩
        "G1" (1/2) (3/2) ⟨11, 1⟩).decision = BetPipeline.Decision.PASS ∧
    (BetPipeline.process_bet ⟨100, 100, 100, 0, 0, BankrollEngine.BankrollStatus.PAUSED⟩
        "G1" (1/2) (3/2) ⟨11, 1⟩).reason = BetPipeline.PipeReason.negativeValue :=
  pipeline_negative_ev_pass ⟨100, 100, 100, 0, 0, BankrollEngine.BankrollStatus.PAUSED⟩
    "G1" (1/2) (3/2) ⟨11, 1⟩ (by norm_num) (by norm_num) (by norm_num) (by norm_num)

open BankrollEngine in
/-- Helper: an `update_bankroll` call in PAUSED status returns the current
units and leaves the database untouched. -/
theorem update_bankroll_paused (db : BankrollDB) (r : BetResult) (s pr : ℚ)
    (h : db.state.status = BankrollStatus.PAUSED) :
    update_bankroll db r s pr = (db, db.state.current_units) := by
  unfold update_bankroll
  rw [if_pos h]

/-- Helper: `takeWhile` after `take n` counts the same elements, capped
at n. -/
theorem length_takeWhile_take {α : Type} (p : α → Bool) :
    ∀ (l : List α) (n : ℕ),
      ((l.take n).takeWhile p).length = min ((l.takeWhile p).length) n := by
  intro l
  induction l with
  | nil => intro n; simp
  | cons a t ih =>
    intro n
    cases n with
    | zero => simp
    | succ n =>
      by_cases hpa : p a
      · simp [List.take_succ_cons, List.takeWhile_cons, hpa, ih n, Nat.succ_min_succ]
      · simp [List.take_succ_cons, List.takeWhile_cons, hpa]

open BankrollEngine in
/-- Helper: the 20-row cutoff of `_count_consecutive_losses` is a
truncation of the full leading-loss run. -/
theorem count_consecutive_losses_eq_min (txs : List Transaction) :
    count_consecutive_losses txs =
      min (((txs.filter isBetTx).takeWhile
        (fun t => t.type = TransactionType.BET_LOSS)).length) 20 := by
  unfold count_consecutive_losses
  exact length_takeWhile_take _ _ _

open BankrollEngine in
/-- Helper: prepending a BET_LOSS transaction extends the leading-loss
run by that transaction. -/
theorem takeWhile_cons_loss (t : Transaction) (txs : List Transaction)
    (ht : t.type = TransactionType.BET_LOSS) :
    ((t :: txs).filter isBetTx).takeWhile
        (fun x => x.type = TransactionType.BET_LOSS)
      = t :: ((txs.filter isBetTx).takeWhile
          (fun x => x.type = TransactionType.BET_LOSS)) := by
  simp [List.filter_cons, isBetTx, ht, List.takeWhile_cons]

open BankrollEngine in
/-- Helper: a non-PAUSED LOSS update increments the leading-loss run. -/
theorem lossStreak_update_loss (db : BankrollDB) (s pr : ℚ)
    (h : db.state.status ≠ BankrollStatus.PAUSED) :
    lossStreak (update_bankroll db BetResult.LOSS s pr).1 = lossStreak db + 1 := by
  unfold update_bankroll lossStreak
  rw [if_neg h]
  dsimp only
  rw [takeWhile_cons_loss _ _ rfl]
  simp

open BankrollEngine in
/-- Helper: a non-PAUSED LOSS update on a database whose leading-loss run
is already at least 9 moves the state machine to PAUSED (the counted
streak reaches 10). -/
theorem status_update_loss_paused (db : BankrollDB) (s pr : ℚ)
    (h : db.state.status ≠ BankrollStatus.PAUSED) (h9 : 9 ≤ lossStreak db) :
    (update_bankroll db BetResult.LOSS s pr).1.state.status
      = BankrollStatus.PAUSED := by
  unfold update_bankroll
  rw [if_neg h]
  dsimp only
  have hcnt : count_consecutive_losses
      (⟨TransactionType.BET_LOSS, -s, db.state.current_units + -s⟩ :: db.transactions)
        ≥ 10 := by
    rw [count_consecutive_losses_eq_min, takeWhile_cons_loss _ _ rfl]
    refine le_min ?_ (by norm_num)
    have : 9 ≤ lossStreak db := h9
    unfold lossStreak at this
    simpa using Nat.succ_le_succ this
  unfold update_status
  rw [if_pos hcnt]

open BankrollEngine in
/-- Helper invariant for C1: after j LOSS calls either the machine is
PAUSED or the leading-loss run is at least j (and j has not yet reached
the pause threshold 10). -/
theorem apply_losses_inv (stakes : List ℚ) :
    ∀ (db : BankrollDB) (j : ℕ),
      (db.state.status = BankrollStatus.PAUSED ∨ (j ≤ lossStreak db ∧ j < 10)) →
      ((apply_losses db stakes).state.status = BankrollStatus.PAUSED ∨
        ((j + stakes.length) ≤ lossStreak (apply_losses db stakes)
          ∧ j + stakes.length < 10)) := by
  induction stakes with
  | nil =>
    intro db j h
    simpa [apply_losses] using h
  | cons s t ih =>
    intro db j h
    have hstep :
        ((update_bankroll db BetResult.LOSS s 0).1.state.status = BankrollStatus.PAUSED
          ∨ ((j + 1) ≤ lossStreak (update_bankroll db BetResult.LOSS s 0).1
              ∧ j + 1 < 10)) := by
      rcases h with hp | ⟨hj, hj10⟩
      · left
        rw [update_bankroll_paused db _ _ _ hp]
        exact hp
      · by_cases hp : db.state.status = BankrollStatus.PAUSED
        · left
          rw [update_bankroll_paused db _ _ _ hp]
          exact hp
        · by_cases hj9 : 9 ≤ j
          · left
            exact status_update_loss_paused db s 0 hp (by omega)
          · right
            refine ⟨?_, by omega⟩
            rw [lossStreak_update_loss db s 0 hp]
            omega
    have hrec := ih (update_bankroll db BetResult.LOSS s 0).1 (j + 1) hstep
    have harith : (j + 1) + t.length = j + (s :: t).length := by
      simp [List.length_cons]
      omega
    rw [harith] at hrec
    simpa [apply_losses, List.foldl_cons] using hrec

open BankrollEngine in
/-- C1: ten consecutive LOSS updates force the bankroll status to PAUSED,
and every `update_bankroll` call made while PAUSED is a no-op returning
the unchanged `current_units` (no exception is modelled because the code
path returns normally). -/
theorem consecutive_losses_pause (db : BankrollDB) (stakes : List ℚ)
    (hlen : stakes.length = 10) :
    (apply_losses db stakes).state.status = BankrollStatus.PAUSED ∧
    (∀ (d : BankrollDB), d.state.status = BankrollStatus.PAUSED →
      ∀ (r : BetResult) (s profit : ℚ),
        update_bankroll d r s profit = (d, d.state.current_units)) := by
  constructor
  · have hinv := apply_losses_inv stakes db 0 (Or.inr ⟨Nat.zero_le _, by norm_num⟩)
    rcases hinv with h | ⟨-, h2⟩
    · exact h
    · exfalso
      omega
  · intro d hd r s profit
    exact update_bankroll_paused d r s profit hd

open BankrollEngine in
/-- C1 witness: ten unit losses from the fresh ACTIVE ledger leave the
status PAUSED, and a WIN update on a PAUSED ledger returns the balance
unchanged. -/
theorem consecutive_losses_pause_witness :
    (apply_losses ⟨⟨100, 100, 100, 0, 25/100, BankrollStatus.ACTIVE⟩, []⟩
        (List.replicate 10 1)).state.status = BankrollStatus.PAUSED ∧
    update_bankroll ⟨⟨50, 100, 100, 0, 0, BankrollStatus.PAUSED⟩, []⟩
        BetResult.WIN 5 5
      = (⟨⟨50, 100, 100, 0, 0, BankrollStatus.PAUSED⟩, []⟩, 50) := by
  have h := consecutive_losses_pause
    ⟨⟨100, 100, 100, 0, 25/100, BankrollStatus.ACTIVE⟩, []⟩
    (List.replicate 10 1) (by simp)
  exact ⟨h.1, h.2 ⟨⟨50, 100, 100, 0, 0, BankrollStatus.PAUSED⟩, []⟩ rfl BetResult.WIN 5 5⟩

open BankrollEngine in
/-- Helper: one `update_bankroll` call never decreases the peak or the
maximum drawdown. -/
theorem update_monotone_step (db : BankrollDB) (u : BetResult × ℚ × ℚ) :
    db.state.peak_bankroll ≤ (apply_update db u).state.peak_bankroll ∧
    db.state.max_drawdown ≤ (apply_update db u).state.max_drawdown := by
  obtain ⟨r, s, pr⟩ := u
  unfold apply_update update_bankroll
  split_ifs with h
  · exact ⟨le_refl _, le_refl _⟩
  · dsimp only
    exact ⟨le_max_left _ _, le_max_left _ _⟩

open BankrollEngine in
/-- Helper: peak and max drawdown are non-decreasing across any sequence
of `update_bankroll` calls. -/
theorem apply_updates_monotone (updates : List (BetResult × ℚ × ℚ)) :
    ∀ db : BankrollDB,
      db.state.peak_bankroll ≤ (apply_updates db updates).state.peak_bankroll ∧
      db.state.max_drawdown ≤ (apply_updates db updates).state.max_drawdown := by
  induction updates with
  | nil => intro db; exact ⟨le_refl _, le_refl _⟩
  | cons u t ih =>
    intro db
    have h1 := update_monotone_step db u
    have h2 := ih (apply_update db u)
    exact ⟨le_trans h1.1 h2.1, le_trans h1.2 h2.2⟩

open BankrollEngine in
/-- C3: across any sequence of `update_bankroll` calls `peak_bankroll`
and `max_drawdown` are monotonically non-decreasing, and a single applied
(non-PAUSED) LOSS update of stake S on balance C leaves the balance
exactly C − S. -/
theorem bankroll_monotonicity (db : BankrollDB)
    (updates : List (BetResult × ℚ × ℚ)) (S P : ℚ) :
    (db.state.peak_bankroll ≤ (apply_updates db updates).state.peak_bankroll
      ∧ db.state.max_drawdown ≤ (apply_updates db updates).state.max_drawdown)
    ∧ (db.state.status ≠ BankrollStatus.PAUSED →
        (update_bankroll db BetResult.LOSS S P).1.state.current_units
            = db.state.current_units - S
          ∧ (update_bankroll db BetResult.LOSS S P).2
            = db.state.current_units - S) := by
  refine ⟨apply_updates_monotone updates db, ?_⟩
  intro h
  unfold update_bankroll
  rw [if_neg h]
  dsimp only
  constructor <;> ring_nf

open BankrollEngine in
/-- C3 witness: from the fresh ledger, a WIN update keeps the peak at
least 100, and a LOSS of 25 from balance 100 leaves exactly 75. -/
theorem bankroll_monotonicity_witness :
    ((⟨⟨100, 100, 100, 0, 25/100, BankrollStatus.ACTIVE⟩, []⟩ : BankrollDB).state.peak_bankroll
        ≤ (apply_updates ⟨⟨100, 100, 100, 0, 25/100, BankrollStatus.ACTIVE⟩, []⟩
            [(BetResult.WIN, 0, 10)]).state.peak_bankroll)
    ∧ (update_bankroll ⟨⟨100, 100, 100, 0, 25/100, BankrollStatus.ACTIVE⟩, []⟩
        BetResult.LOSS 25 0).1.state.current_units = 100 - 25 := by
  have h := bankroll_monotonicity
    ⟨⟨100, 100, 100, 0, 25/100, BankrollStatus.ACTIVE⟩, []⟩
    [(BetResult.WIN, 0, 10)] 25 0
  exact ⟨h.1.1, (h.2 (by simp)).1⟩

open BankrollEngine in
/-- C8 counterexample: the claim says every `update_bankroll` call appends
exactly one Transaction regardless of the bankroll status, but a call
made while the status is PAUSED appends nothing: on a PAUSED ledger with
an empty log, the log still has length 0 (not 1) after a WIN update. -/
theorem paused_call_appends_nothing :
    ((update_bankroll ⟨⟨50, 100, 100, 0, 0, BankrollStatus.PAUSED⟩, []⟩
        BetResult.WIN 1 1).1).transactions.length = 0 := rfl

open BankrollEngine in
/-- C8 amended: every `update_bankroll` call made while the status is not
PAUSED appends exactly one Transaction (for every result type); a call
made while PAUSED appends none. -/
theorem update_appends_one_transaction (db : BankrollDB) (r : BetResult) (s pr : ℚ) :
    (db.state.status ≠ BankrollStatus.PAUSED →
      (update_bankroll db r s pr).1.transactions.length
        = db.transactions.length + 1)
    ∧ (db.state.status = BankrollStatus.PAUSED →
      (update_bankroll db r s pr).1.transactions = db.transactions) := by
  constructor
  · intro h
    unfold update_bankroll
    rw [if_neg h]
    dsimp only
    simp
  · intro h
    rw [update_bankroll_paused db r s pr h]

open BankrollEngine in
/-- C8 witness: a PUSH update on the fresh ACTIVE ledger grows the empty
log to length 1, and the same call on a PAUSED ledger leaves it empty. -/
theorem update_appends_one_transaction_witness :
    (update_bankroll ⟨⟨100, 100, 100, 0, 25/100, BankrollStatus.ACTIVE⟩, []⟩
        BetResult.PUSH 1 0).1.transactions.length = 1 ∧
    (update_bankroll ⟨⟨50, 100, 100, 0, 0, BankrollStatus.PAUSED⟩, []⟩
        BetResult.PUSH 1 0).1.transactions = ([] : List Transaction) := by
  refine ⟨?_, ?_⟩
  · exact (update_appends_one_transaction
      ⟨⟨100, 100, 100, 0, 25/100, BankrollStatus.ACTIVE⟩, []⟩
      BetResult.PUSH 1 0).1 (by simp)
  · exact (update_appends_one_transaction
      ⟨⟨50, 100, 100, 0, 0, BankrollStatus.PAUSED⟩, []⟩
      BetResult.PUSH 1 0).2 rfl

/-- Helper: one step of the season loop either hits the ruin
short-circuit or recurses on the remaining games. -/
theorem season_loop_cons (params : MonteCarlo.SimParams) (row : MonteCarlo.PoolRow)
    (rest : List MonteCarlo.PoolRow) (i : ℕ) (b peak maxdd : ℚ) (bets : ℕ) :
    (b < MonteCarlo.RUIN_THRESHOLD →
      MonteCarlo.season_loop params (row :: rest) i b peak maxdd bets
        = ⟨-1, 1, true, bets, b⟩)
    ∧ (¬ b < MonteCarlo.RUIN_THRESHOLD →
      ∃ (b2 peak2 maxdd2 : ℚ) (bets2 : ℕ),
        MonteCarlo.season_loop params (row :: rest) i b peak maxdd bets
          = MonteCarlo.season_loop params rest (i + 1) b2 peak2 maxdd2 bets2) := by
  constructor
  · intro hb
    rw [MonteCarlo.season_loop.eq_2, if_pos hb]
  · intro hb
    rw [MonteCarlo.season_loop.eq_2, if_neg hb]
    exact ⟨_, _, _, _, rfl⟩

/-- C9: `run_single_season` (via its loop) returns `bankrupt = true` and
stops processing further games as soon as the bankroll is below the ruin
threshold with games remaining (the result is the ruin record, untouched
by the remaining games); and whenever a season ends with
`bankrupt = false`, `final_roi` equals
`(final_bankroll − INITIAL_BANKROLL)/INITIAL_BANKROLL`. -/
theorem monte_carlo_ruin (params : MonteCarlo.SimParams) :
    (∀ (row : MonteCarlo.PoolRow) (rest : List MonteCarlo.PoolRow) (i : ℕ)
        (b peak maxdd : ℚ) (bets : ℕ),
      b < MonteCarlo.RUIN_THRESHOLD →
        MonteCarlo.season_loop params (row :: rest) i b peak maxdd bets
          = ⟨-1, 1, true, bets, b⟩)
    ∧ (∀ (pool : List MonteCarlo.PoolRow) (i : ℕ) (b peak maxdd : ℚ) (bets : ℕ),
        (MonteCarlo.season_loop params pool i b peak maxdd bets).bankrupt = false →
          (MonteCarlo.season_loop params pool i b peak maxdd bets).final_roi
            = ((MonteCarlo.season_loop params pool i b peak maxdd bets).final_bankroll
                - MonteCarlo.INITIAL_BANKROLL) / MonteCarlo.INITIAL_BANKROLL)
    ∧ (∀ pool : List MonteCarlo.PoolRow,
        (MonteCarlo.run_single_season pool params).bankrupt = false →
          (MonteCarlo.run_single_season pool params).final_roi
            = ((MonteCarlo.run_single_season pool params).final_bankroll
                - MonteCarlo.INITIAL_BANKROLL) / MonteCarlo.INITIAL_BANKROLL) := by
  have part2 : ∀ (pool : List MonteCarlo.PoolRow) (i : ℕ) (b peak maxdd : ℚ)
      (bets : ℕ),
      (MonteCarlo.season_loop params pool i b peak maxdd bets).bankrupt = false →
        (MonteCarlo.season_loop params pool i b peak maxdd bets).final_roi
          = ((MonteCarlo.season_loop params pool i b peak maxdd bets).final_bankroll
              - MonteCarlo.INITIAL_BANKROLL) / MonteCarlo.INITIAL_BANKROLL := by
    intro pool
    induction pool with
    | nil =>
      intro i b peak maxdd bets h
      rw [MonteCarlo.season_loop.eq_1]
    | cons row rest ih =>
      intro i b peak maxdd bets h
      by_cases hb : b < MonteCarlo.RUIN_THRESHOLD
      · rw [(season_loop_cons params row rest i b peak maxdd bets).1 hb] at h
        exact absurd h (by simp)
      · obtain ⟨b2, p2, d2, t2, heq⟩ :=
          (season_loop_cons params row rest i b peak maxdd bets).2 hb
        rw [heq] at h ⊢
        exact ih _ _ _ _ _ h
  refine ⟨?_, part2, ?_⟩
  · intro row rest i b peak maxdd bets hb
    exact (season_loop_cons params row rest i b peak maxdd bets).1 hb
  · intro pool h
    exact part2 pool 0 MonteCarlo.INITIAL_BANKROLL MonteCarlo.INITIAL_BANKROLL 0 0 h

/-- C9 witness: a season whose bankroll is already 5 (< 10) at a game
boundary returns the ruin record without touching the remaining game, and
the empty season ends non-bankrupt with the ROI formula. -/
theorem monte_carlo_ruin_witness :
    MonteCarlo.season_loop ⟨1/4, 0, 3/100⟩ [⟨1/2, 2, 1⟩] 0 5 100 0 3
      = ⟨-1, 1, true, 3, 5⟩ ∧
    (MonteCarlo.run_single_season [] ⟨1/4, 0, 3/100⟩).final_roi
      = ((MonteCarlo.run_single_season [] ⟨1/4, 0, 3/100⟩).final_bankroll
          - MonteCarlo.INITIAL_BANKROLL) / MonteCarlo.INITIAL_BANKROLL :=
  ⟨(monte_carlo_ruin ⟨1/4, 0, 3/100⟩).1 ⟨1/2, 2, 1⟩ [] 0 5 100 0 3
      (by norm_num [MonteCarlo.RUIN_THRESHOLD]),
   (monte_carlo_ruin ⟨1/4, 0, 3/100⟩).2.2 [] rfl⟩

/-- C5 counterexample: the claim asserts `calculate_kelly(p, odds) =
(p·odds − 1)/(odds − 1)` for every probability and odds, but at
probability 1 and odds 0.5 the code returns 0 while the formula gives 1
(the code special-cases odds ≤ 1.0 to return 0.0). -/
theorem calculate_kelly_counterexample :
    StakeEngine.calculate_kelly 1 (1/2) = 0 ∧
    ((1 : ℚ) * (1/2) - 1) / ((1/2 : ℚ) - 1) = 1 ∧
    StakeEngine.calculate_kelly 1 (1/2) ≠ ((1 : ℚ) * (1/2) - 1) / ((1/2 : ℚ) - 1) := by
  refine ⟨?_, by norm_num, ?_⟩ <;> norm_num [StakeEngine.calculate_kelly]

/-- C5 amended: for odds > 1, `calculate_kelly(p, odds) =
(p·odds − 1)/(odds − 1)`; for odds ≤ 1 it returns 0; and whenever the raw
Kelly fraction is ≤ 0, `calculate_stake` returns `recommended_stake = 0`
with `was_zeroed = true`. -/
theorem calculate_kelly_formula (p odds bankroll fk msp aggr : ℚ) :
    (1 < odds → StakeEngine.calculate_kelly p odds = (p * odds - 1) / (odds - 1))
    ∧ (odds ≤ 1 → StakeEngine.calculate_kelly p odds = 0)
    ∧ (StakeEngine.calculate_kelly p odds ≤ 0 →
        (StakeEngine.calculate_stake p odds bankroll fk msp aggr).recommended_stake = 0
        ∧ (StakeEngine.calculate_stake p odds bankroll fk msp aggr).was_zeroed = true) := by
  refine ⟨?_, ?_, ?_⟩
  · intro h
    unfold StakeEngine.calculate_kelly
    rw [if_neg (not_le.mpr h)]
  · intro h
    unfold StakeEngine.calculate_kelly
    rw [if_pos h]
  · intro h
    unfold StakeEngine.calculate_stake
    rw [if_pos h]
    exact ⟨rfl, rfl⟩

/-- C5 witness: `calculate_kelly(0.6, 2.0) = 0.2` by the formula, and a
non-positive Kelly input (p = 0.4, odds = 2) forces a zeroed stake. -/
theorem calculate_kelly_formula_witness :
    StakeEngine.calculate_kelly (3/5) 2 = ((3/5 : ℚ) * 2 - 1) / (2 - 1) ∧
    (StakeEngine.calculate_stake (2/5) 2 100 (1/4) (1/20) 1).recommended_stake = 0 ∧
    (StakeEngine.calculate_stake (2/5) 2 100 (1/4) (1/20) 1).was_zeroed = true := by
  refine ⟨(calculate_kelly_formula (3/5) 2 0 0 0 0).1 (by norm_num), ?_, ?_⟩
  · exact ((calculate_kelly_formula (2/5) 2 100 (1/4) (1/20) 1).2.2
      (by norm_num [StakeEngine.calculate_kelly])).1
  · exact ((calculate_kelly_formula (2/5) 2 100 (1/4) (1/20) 1).2.2
      (by norm_num [StakeEngine.calculate_kelly])).2
